import Mathlib

/-!
Shallow embedding of `open_prs.py` (SUSE/open_prs), a script that fetches
users' open pull requests from the GitHub GraphQL API, filters them to a
configured repository list and prints a colour-coded report.

Modelling conventions:
* A printed line is one `OutLine` recording the stream (`print(...)` writes to
  stdout, `print(..., file=sys.stderr)` to stderr) and the text passed to the
  call (the newline `print` appends is left implicit).
* Timestamps are integers counting microseconds (Python `datetime`'s
  resolution) of a timezone-aware instant; `timedelta(days=d)` becomes
  `d * microsecondsPerDay`.  `datetime.now(timezone.utc)` is passed in as the
  explicit parameter `now`, and `parser.parse(pr['createdAt'])` is the
  already-decoded `createdAt` field.
* A parsed TOML document is an association list from keys to values; Python's
  truthiness test `if not settings` is `settings = None` or the empty dict.
* The filesystem, `os.path.expanduser` and `toml.load` are an abstract
  `FileSystem` record, since the claims only depend on which candidate paths
  qualify and on what each qualifying path parses to.
-/

/-- Output stream of a `print` call. -/
inductive OutStream where
  | stdout
  | stderr
deriving DecidableEq, Repr

/-- One printed line: its stream and the text handed to `print`. -/
structure OutLine where
  stream : OutStream
  text : String
deriving DecidableEq, Repr

-- ANSI colour constants from the `bcolors` class.
namespace bcolors

def HEADER : String := "\x1b[95m"

def OKBLUE : String := "\x1b[94m"

def OKGREEN : String := "\x1b[92m"

def WARNING : String := "\x1b[93m"

def FAIL : String := "\x1b[91m"

def ENDC : String := "\x1b[0m"

def BOLD : String := "\x1b[1m"

def UNDERLINE : String := "\x1b[4m"

end bcolors

/-- One pull-request node of the GraphQL response: the repository's
`nameWithOwner` (the owner/name repository identifier), the decoded
`createdAt` instant (microseconds), `number`, `title` and `url`. -/
structure PullRequest where
  nameWithOwner : String
  createdAt : Int
  number : Int
  title : String
  url : String
deriving DecidableEq, Repr

/-- Microseconds in a day: `timedelta(days=d)` is `d * microsecondsPerDay`. -/
def microsecondsPerDay : Int := 86400000000

/-- `get_colour_coding_for_pr(pr, days=14)`: green unless the PR is strictly
older than `days` days.  `now` is the ambient clock `datetime.now(timezone.utc)`;
the Python default argument `days=14` is passed explicitly by callers. -/
def get_colour_coding_for_pr (pr : PullRequest) (now : Int) (days : Int) : String :=
  let created_at := pr.createdAt
  let age := now - created_at
  let colour := bcolors.OKGREEN
  if age > days * microsecondsPerDay then bcolors.FAIL else colour

/-- `filter_prs_by_repos(pull_requests, repos)`: the list comprehension keeping
the pull requests whose `repository.nameWithOwner` is in `repos`. -/
def filter_prs_by_repos (pull_requests : List PullRequest) (repos : List String) :
    List PullRequest :=
  match pull_requests with
  | [] => []
  | pull_request :: rest =>
    if pull_request.nameWithOwner ∈ repos then
      pull_request :: filter_prs_by_repos rest repos
    else
      filter_prs_by_repos rest repos

/-- The comprehension is `List.filter` of the membership test. -/
theorem filter_prs_by_repos_eq_filter (P : List PullRequest) (R : List String) :
    filter_prs_by_repos P R = P.filter (fun pr => pr.nameWithOwner ∈ R) := by
  induction P with
  | nil => rfl
  | cons hd tl ih =>
    by_cases h : hd.nameWithOwner ∈ R <;>
      simp [filter_prs_by_repos, h, ih]

/-- C1: `filter(P, R)` returns exactly the elements of `P` whose repository
identifier is in `R`: membership is characterised, the result is a sublist of
`P` (so order is preserved and nothing is reordered), and each element occurs
exactly as often as in `P` when retained and not at all otherwise (so nothing
is duplicated). -/
theorem filter_prs_by_repos_spec (P : List PullRequest) (R : List String) :
    (∀ pr, pr ∈ filter_prs_by_repos P R ↔ pr ∈ P ∧ pr.nameWithOwner ∈ R)
    ∧ List.Sublist (filter_prs_by_repos P R) P
    ∧ (∀ pr, (filter_prs_by_repos P R).count pr =
        if pr.nameWithOwner ∈ R then P.count pr else 0) := by
  refine ⟨?_, ?_, ?_⟩
  · intro pr
    rw [filter_prs_by_repos_eq_filter]
    simp [List.mem_filter]
  · rw [filter_prs_by_repos_eq_filter]
    exact List.filter_sublist P
  · intro pr
    rw [filter_prs_by_repos_eq_filter]
    by_cases h : pr.nameWithOwner ∈ R
    · simp only [if_pos h]
      rw [List.count_filter]
      simp [h]
    · simp only [if_neg h]
      rw [List.count_eq_zero]
      intro hmem
      rw [List.mem_filter] at hmem
      exact h (by simpa using hmem.2)

/-- C1 witness: the specification instantiated at a concrete list. -/
theorem filter_prs_by_repos_spec_witness :
    (⟨"org/repo1", 0, 1, "a", "ua"⟩ : PullRequest) ∈
      filter_prs_by_repos
        [⟨"org/repo1", 0, 1, "a", "ua"⟩, ⟨"org/repo2", 0, 2, "b", "ub"⟩]
        ["org/repo1"] :=
  ((filter_prs_by_repos_spec
      [⟨"org/repo1", 0, 1, "a", "ua"⟩, ⟨"org/repo2", 0, 2, "b", "ub"⟩]
      ["org/repo1"]).1 ⟨"org/repo1", 0, 1, "a", "ua"⟩).mpr (by decide)

/-- C9: filtering is idempotent. -/
theorem filter_prs_by_repos_idempotent (P : List PullRequest) (R : List String) :
    filter_prs_by_repos (filter_prs_by_repos P R) R = filter_prs_by_repos P R := by
  simp only [filter_prs_by_repos_eq_filter]
  rw [List.filter_filter]
  simp

/-- C2: with the default threshold of 14 days the classification is the failure
colour (stale) iff `now - createdAt` strictly exceeds 14 days, and at exactly
14 days it is the success colour (fresh). -/
theorem get_colour_coding_threshold (pr : PullRequest) (now : Int) :
    (get_colour_coding_for_pr pr now 14 = bcolors.FAIL ↔
      now - pr.createdAt > 14 * microsecondsPerDay)
    ∧ (now - pr.createdAt = 14 * microsecondsPerDay →
      get_colour_coding_for_pr pr now 14 = bcolors.OKGREEN) := by
  unfold get_colour_coding_for_pr
  by_cases h : now - pr.createdAt > 14 * microsecondsPerDay
  · refine ⟨?_, ?_⟩
    · rw [if_pos h]
      exact ⟨fun _ => h, fun _ => rfl⟩
    · intro heq
      rw [heq] at h
      exact absurd h (lt_irrefl _)
  · refine ⟨?_, ?_⟩
    · rw [if_neg h]
      exact ⟨fun hgreen => absurd hgreen (by decide), fun hc => absurd hc h⟩
    · intro _
      rw [if_neg h]

/-- C2 witness: a PR created exactly 14 days before `now` is classified with
the success colour. -/
theorem get_colour_coding_threshold_witness :
    get_colour_coding_for_pr ⟨"org/repo1", 0, 1, "t", "u"⟩
      (14 * microsecondsPerDay) 14 = bcolors.OKGREEN :=
  (get_colour_coding_threshold ⟨"org/repo1", 0, 1, "t", "u"⟩
      (14 * microsecondsPerDay)).2 (by simp)

/-- A TOML value as far as the recognised schema goes: `usernames` and `repos`
are arrays of strings, `github_token` a string. -/
inductive TomlValue where
  | str : String → TomlValue
  | strList : List String → TomlValue
deriving DecidableEq, Repr

/-- A parsed TOML document: an association list from keys to values. -/
abbrev TomlDoc := List (String × TomlValue)

/-- The string stored in a value; off-schema array values (never produced by a
config following the recognised schema) read as the empty string. -/
def TomlValue.asString : TomlValue → String
  | TomlValue.str s => s
  | TomlValue.strList _ => ""

/-- The string array stored in a value; off-schema scalar values read as the
empty array. -/
def TomlValue.asStrList : TomlValue → List String
  | TomlValue.strList l => l
  | TomlValue.str _ => []

/-- The filesystem and TOML front end seen by `get_settings`: `os.path.isfile`
(which follows symlinks), `os.path.isdir`, `os.path.islink`,
`os.path.expanduser`, and `toml.load` giving the parsed document of a path. -/
structure FileSystem where
  expanduser : String → String
  is_file : String → Bool
  is_dir : String → Bool
  is_link : String → Bool
  load : String → TomlDoc

/-- The five candidate settings paths, in the order `get_settings` scans them. -/
def config_paths : List String :=
  ["./.open_prs.toml", "./open_prs.toml", "~/.open_prs.toml",
   "~/.config/open_prs.toml", "/etc/open_prs.toml"]

/-- The per-path test in `get_settings`:
`os.path.isfile(path) and not os.path.isdir(path) and not os.path.islink(path)`
on the `expanduser`-expanded path. -/
def qualifies (fs : FileSystem) (path : String) : Bool :=
  let q := fs.expanduser path
  fs.is_file q && !(fs.is_dir q) && !(fs.is_link q)

/-- One iteration of the scan loop: a qualifying path replaces `settings` with
its parsed document, any other path leaves `settings` unchanged. -/
def scanStep (fs : FileSystem) (settings : Option TomlDoc) (path : String) :
    Option TomlDoc :=
  if qualifies fs path then some (fs.load (fs.expanduser path)) else settings

/-- The scan loop of `get_settings`: `settings = None`, then each candidate
path in order overwrites `settings` when it qualifies. -/
def scan_settings (fs : FileSystem) : Option TomlDoc :=
  config_paths.foldl (scanStep fs) none

/-- Python's `if not settings`: `None` or the empty dict is falsy. -/
def settings_falsy : Option TomlDoc → Bool
  | none => true
  | some doc => doc.isEmpty

/-- The message printed (to stdout) when no settings file is found. -/
def notFoundMsg : String :=
  "Could not find settings file in any of these locations: "
    ++ String.intercalate ", " config_paths

/-- The stderr message for a missing `usernames` key. -/
def usernamesMsg : String :=
  "usernames definition missing in settings file: repos = [\"bob\", \"alice\"]"

/-- The stderr message for a missing `repos` key. -/
def reposMsg : String :=
  "repos definition missing in settings file: repos = [\"foo/prj\", \"bar/prj\"]"

/-- The stderr message when no API token can be resolved. -/
def tokenMsg : String :=
  "Please provide a Github API token via environment variable `GITHUB_TOKEN_GALAXY` or via settings file."

/-- The tail of `get_settings` after the scan loop: the not-found check (exit
3, message on stdout), the `usernames` and `repos` key checks (exit 2, message
on stderr), then extraction of `usernames`, `repos` and the optional
`github_token`. -/
def settings_from (settings : Option TomlDoc) :
    List OutLine × Except Int (List String × List String × Option String) :=
  if settings_falsy settings then
    ([⟨OutStream.stdout, notFoundMsg⟩], Except.error 3)
  else
    let doc := settings.getD []
    if (List.lookup "usernames" doc).isNone then
      ([⟨OutStream.stderr, usernamesMsg⟩], Except.error 2)
    else if (List.lookup "repos" doc).isNone then
      ([⟨OutStream.stderr, reposMsg⟩], Except.error 2)
    else
      ([], Except.ok
        (((List.lookup "usernames" doc).getD (TomlValue.strList [])).asStrList,
         ((List.lookup "repos" doc).getD (TomlValue.strList [])).asStrList,
         (List.lookup "github_token" doc).map TomlValue.asString))

/-- `get_settings()`: scan the candidate paths, then validate and extract. -/
def get_settings (fs : FileSystem) :
    List OutLine × Except Int (List String × List String × Option String) :=
  settings_from (scan_settings fs)

/-- Python's `if not api_token`: `None` or the empty string is falsy. -/
def token_falsy : Option String → Bool
  | none => true
  | some s => s.isEmpty

/-- The startup part of `__main__`: `get_settings`, then the fallback to the
`GITHUB_TOKEN_GALAXY` environment variable and the exit-1 check. -/
def main_startup (fs : FileSystem) (env : String → Option String) :
    List OutLine × Except Int (List String × List String × String) :=
  match get_settings fs with
  | (out, Except.error c) => (out, Except.error c)
  | (out, Except.ok (usernames, repos, github_token)) =>
    let api_token :=
      if token_falsy github_token then env "GITHUB_TOKEN_GALAXY" else github_token
    if token_falsy api_token then
      (out ++ [⟨OutStream.stderr, tokenMsg⟩], Except.error 1)
    else
      (out, Except.ok (usernames, repos, api_token.getD ""))

/-- A scan over paths none of which qualifies leaves the accumulator alone. -/
theorem foldl_scanStep_of_none_qualifies (fs : FileSystem) (l : List String)
    (acc : Option TomlDoc) (h : ∀ q ∈ l, qualifies fs q = false) :
    l.foldl (scanStep fs) acc = acc := by
  induction l generalizing acc with
  | nil => rfl
  | cons hd tl ih =>
    rw [List.foldl_cons]
    have hhd : qualifies fs hd = false := h hd (List.mem_cons_self hd tl)
    rw [show scanStep fs acc hd = acc from by simp [scanStep, hhd]]
    exact ih acc (fun q hq => h q (List.mem_cons_of_mem hd hq))

/-- C3: the settings come from the last qualifying candidate path.  If
`config_paths` splits as `pre ++ p :: post` where `p` qualifies (regular file,
not a directory, not a symlink) and nothing after `p` qualifies, then the scan
yields exactly the document parsed from `p`, and `get_settings` proceeds on
that document alone — earlier candidates contribute nothing. -/
theorem get_settings_last_wins (fs : FileSystem) (pre post : List String)
    (p : String) (hsplit : config_paths = pre ++ p :: post)
    (hp : qualifies fs p = true)
    (hpost : ∀ q ∈ post, qualifies fs q = false) :
    scan_settings fs = some (fs.load (fs.expanduser p))
    ∧ get_settings fs = settings_from (some (fs.load (fs.expanduser p))) := by
  have hscan : scan_settings fs = some (fs.load (fs.expanduser p)) := by
    unfold scan_settings
    rw [hsplit, List.foldl_append, List.foldl_cons]
    rw [show scanStep fs (pre.foldl (scanStep fs) none) p
          = some (fs.load (fs.expanduser p)) from by simp [scanStep, hp]]
    exact foldl_scanStep_of_none_qualifies fs post _ hpost
  exact ⟨hscan, by unfold get_settings; rw [hscan]⟩

/-- A filesystem on which the first and third candidate paths are regular
files; `load` tags each document with the path it came from. -/
def fsLastWins : FileSystem where
  expanduser := fun s => s
  is_file := fun s => s == "./.open_prs.toml" || s == "~/.open_prs.toml"
  is_dir := fun _ => false
  is_link := fun _ => false
  load := fun s => [("source", TomlValue.str s)]

/-- C3 witness: with the first and third candidates present, the scan returns
the third candidate's document. -/
theorem get_settings_last_wins_witness :
    scan_settings fsLastWins = some [("source", TomlValue.str "~/.open_prs.toml")] :=
  ((get_settings_last_wins fsLastWins ["./.open_prs.toml", "./open_prs.toml"]
      ["~/.config/open_prs.toml", "/etc/open_prs.toml"] "~/.open_prs.toml"
      rfl rfl (by decide)).1).trans rfl

/-- C6: when no candidate path qualifies, `get_settings` prints (to stdout) the
not-found message, which lists all searched paths, and exits with code 3. -/
theorem get_settings_no_config_exit3 (fs : FileSystem)
    (h : ∀ p ∈ config_paths, qualifies fs p = false) :
    get_settings fs = ([⟨OutStream.stdout, notFoundMsg⟩], Except.error 3)
    ∧ notFoundMsg = "Could not find settings file in any of these locations: "
        ++ String.intercalate ", " config_paths := by
  have hscan : scan_settings fs = none :=
    foldl_scanStep_of_none_qualifies fs config_paths none h
  refine ⟨?_, rfl⟩
  unfold get_settings
  rw [hscan]
  rfl

/-- A filesystem with no files at all. -/
def emptyFS : FileSystem where
  expanduser := fun s => s
  is_file := fun _ => false
  is_dir := fun _ => false
  is_link := fun _ => false
  load := fun _ => []

/-- C6 witness: on an empty filesystem the loader exits with code 3. -/
theorem get_settings_no_config_exit3_witness :
    get_settings emptyFS = ([⟨OutStream.stdout, notFoundMsg⟩], Except.error 3) :=
  (get_settings_no_config_exit3 emptyFS (by decide)).1

/-- C7 counterexample: an empty loaded document lacks the `usernames` key, yet
the program exits with code 3 (treating it like a missing file), not code 2. -/
theorem config_incomplete_counterexample :
    List.lookup "usernames" ([] : TomlDoc) = none
    ∧ (settings_from (some ([] : TomlDoc))).2 = Except.error 3
    ∧ (3 : Int) ≠ 2 :=
  ⟨rfl, rfl, by decide⟩

/-- C7 (amended): a non-empty loaded document missing the `usernames` key or
missing the `repos` key makes the program print one diagnostic line to stderr
and exit with code 2. -/
theorem config_incomplete_exit2 (doc : TomlDoc) (hne : doc ≠ [])
    (h : (List.lookup "usernames" doc).isNone = true
      ∨ (List.lookup "repos" doc).isNone = true) :
    (settings_from (some doc)).2 = Except.error 2
    ∧ ∃ msg, (settings_from (some doc)).1 = [⟨OutStream.stderr, msg⟩] := by
  have hfal : settings_falsy (some doc) = false := by
    cases doc with
    | nil => exact absurd rfl hne
    | cons a l => rfl
  by_cases hu : (List.lookup "usernames" doc).isNone = true
  · have key : settings_from (some doc)
        = ([⟨OutStream.stderr, usernamesMsg⟩], Except.error 2) := by
      simp only [settings_from, hfal, Bool.false_eq_true, if_false,
        Option.getD_some, hu, if_true]
    rw [key]
    exact ⟨rfl, usernamesMsg, rfl⟩
  · have hr : (List.lookup "repos" doc).isNone = true := h.resolve_left hu
    have key : settings_from (some doc)
        = ([⟨OutStream.stderr, reposMsg⟩], Except.error 2) := by
      simp only [settings_from, hfal, Bool.false_eq_true, if_false,
        Option.getD_some, hu, hr, if_true]
    rw [key]
    exact ⟨rfl, reposMsg, rfl⟩

/-- C7 witness: a document with `usernames` but no `repos` exits with code 2. -/
theorem config_incomplete_exit2_witness :
    (settings_from (some [("usernames", TomlValue.strList ["alice"])])).2
      = Except.error 2 :=
  (config_incomplete_exit2 [("usernames", TomlValue.strList ["alice"])]
      (by decide) (Or.inr (by decide))).1

/-- C10: when the scan's final document is empty (falsy), `get_settings`
behaves exactly as if no configuration file existed: the not-found message and
exit code 3, identical to the no-file outcome. -/
theorem get_settings_empty_doc_like_missing (fs : FileSystem)
    (h : scan_settings fs = some []) :
    get_settings fs = ([⟨OutStream.stdout, notFoundMsg⟩], Except.error 3)
    ∧ get_settings fs = settings_from none := by
  unfold get_settings
  rw [h]
  exact ⟨rfl, rfl⟩

/-- A filesystem on which only `/etc/open_prs.toml` exists and parses to the
empty document. -/
def fsEmptyDoc : FileSystem where
  expanduser := fun s => s
  is_file := fun s => s == "/etc/open_prs.toml"
  is_dir := fun _ => false
  is_link := fun _ => false
  load := fun _ => []

/-- C10 witness: a present-but-empty settings file yields the not-found
message and exit code 3. -/
theorem get_settings_empty_doc_like_missing_witness :
    get_settings fsEmptyDoc = ([⟨OutStream.stdout, notFoundMsg⟩], Except.error 3) :=
  (get_settings_empty_doc_like_missing fsEmptyDoc rfl).1

/-- C8 counterexample: the no-config-file diagnostic is printed on stdout, not
stderr, before exiting with code 3. -/
theorem not_found_diagnostic_on_stdout :
    (get_settings emptyFS).2 = Except.error 3
    ∧ (get_settings emptyFS).1.map OutLine.stream = [OutStream.stdout]
    ∧ OutStream.stdout ≠ OutStream.stderr :=
  ⟨rfl, rfl, by decide⟩

/-- `settings_from` either succeeds silently or fails with exactly one
diagnostic line: the stdout not-found message with code 3, or a non-empty
stderr message with code 2. -/
theorem settings_from_cases (s : Option TomlDoc) :
    (∃ v, settings_from s = ([], Except.ok v))
    ∨ settings_from s = ([⟨OutStream.stdout, notFoundMsg⟩], Except.error 3)
    ∨ (∃ m, settings_from s = ([⟨OutStream.stderr, m⟩], Except.error 2)
        ∧ m ≠ "") := by
  by_cases hf : settings_falsy s = true
  · refine Or.inr (Or.inl ?_)
    simp only [settings_from, hf, if_true]
  · rw [Bool.not_eq_true] at hf
    by_cases hu : (List.lookup "usernames" (s.getD [])).isNone = true
    · refine Or.inr (Or.inr ⟨usernamesMsg, ?_, by decide⟩)
      simp only [settings_from, hf, Bool.false_eq_true, if_false, hu, if_true]
    · rw [Bool.not_eq_true] at hu
      by_cases hr : (List.lookup "repos" (s.getD [])).isNone = true
      · refine Or.inr (Or.inr ⟨reposMsg, ?_, by decide⟩)
        simp only [settings_from, hf, Bool.false_eq_true, if_false, hu, hr,
          if_true]
      · rw [Bool.not_eq_true] at hr
        refine Or.inl
          ⟨(((List.lookup "usernames" (s.getD [])).getD
                (TomlValue.strList [])).asStrList,
            ((List.lookup "repos" (s.getD [])).getD
                (TomlValue.strList [])).asStrList,
            (List.lookup "github_token" (s.getD [])).map TomlValue.asString),
           ?_⟩
        simp only [settings_from, hf, Bool.false_eq_true, if_false, hu, hr]

/-- `main_startup` forwards a `get_settings` failure unchanged. -/
theorem main_startup_error (fs : FileSystem) (env : String → Option String)
    (out : List OutLine) (c : Int)
    (h : get_settings fs = (out, Except.error c)) :
    main_startup fs env = (out, Except.error c) := by
  unfold main_startup
  rw [h]

/-- After a successful `get_settings`, `main_startup` resolves the token and
either fails with code 1 on stderr or succeeds. -/
theorem main_startup_ok (fs : FileSystem) (env : String → Option String)
    (out : List OutLine) (u r : List String) (t : Option String)
    (h : get_settings fs = (out, Except.ok (u, r, t))) :
    main_startup fs env =
      if token_falsy (if token_falsy t then env "GITHUB_TOKEN_GALAXY" else t) then
        (out ++ [⟨OutStream.stderr, tokenMsg⟩], Except.error 1)
      else
        (out, Except.ok (u, r,
          (if token_falsy t then env "GITHUB_TOKEN_GALAXY" else t).getD "")) := by
  unfold main_startup
  rw [h]

/-- C8 (amended): every fatal failure of the startup path prints exactly one
non-empty diagnostic line to the terminal — on stdout for the no-config-file
failure (exit 3) and on stderr for the missing-key (exit 2) and
missing-credential (exit 1) failures — and nothing is swallowed or sent to a
log file. -/
theorem fatal_failures_surfaced (fs : FileSystem) (env : String → Option String)
    (c : Int) (h : (main_startup fs env).2 = Except.error c) :
    ∃ msg, (main_startup fs env).1
        = [⟨if c = 3 then OutStream.stdout else OutStream.stderr, msg⟩]
      ∧ msg ≠ "" := by
  rcases settings_from_cases (scan_settings fs) with ⟨v, hv⟩ | h3 | ⟨m, h2, hm⟩
  · obtain ⟨u, r, t⟩ := v
    have hg : get_settings fs = ([], Except.ok (u, r, t)) := hv
    have hmain := main_startup_ok fs env [] u r t hg
    by_cases ht :
        token_falsy (if token_falsy t then env "GITHUB_TOKEN_GALAXY" else t) = true
    · rw [hmain, if_pos ht] at h ⊢
      have hc : (1 : Int) = c := by simpa using h
      subst hc
      exact ⟨tokenMsg, by simp, by decide⟩
    · rw [hmain, if_neg ht] at h
      simp at h
  · have hg : get_settings fs = ([⟨OutStream.stdout, notFoundMsg⟩], Except.error 3) := h3
    rw [main_startup_error fs env _ 3 hg] at h ⊢
    have hc : (3 : Int) = c := by simpa using h
    subst hc
    exact ⟨notFoundMsg, by simp, by decide⟩
  · have hg : get_settings fs = ([⟨OutStream.stderr, m⟩], Except.error 2) := h2
    rw [main_startup_error fs env _ 2 hg] at h ⊢
    have hc : (2 : Int) = c := by simpa using h
    subst hc
    exact ⟨m, by simp, hm⟩

/-- C8 witness: on an empty filesystem the startup fails with code 3 and its
single diagnostic line goes to stdout. -/
theorem fatal_failures_surfaced_witness :
    ∃ msg, (main_startup emptyFS (fun _ => none)).1
        = [⟨if (3 : Int) = 3 then OutStream.stdout else OutStream.stderr, msg⟩]
      ∧ msg ≠ "" :=
  fatal_failures_surfaced emptyFS (fun _ => none) 3 rfl

/-- The 80-character rule printed after each user header: `"=" * 80`. -/
def sepEq : String := String.mk (List.replicate 80 '=')

/-- The 80-character rule printed between pull requests: `"-" * 80`. -/
def sepDash : String := String.mk (List.replicate 80 '-')

/-- The body printed for entry `i` of the filtered list of length `n`: the
loop's redundant `if repo not in repos: continue` recheck, then the coloured
title, the link line, and either the trailing blank line (last entry) or the
dash rule. -/
def render_pr_block (n : Nat) (now : Int) (repos : List String) (i : Nat)
    (pr : PullRequest) : List OutLine :=
  if pr.nameWithOwner ∈ repos then
    ⟨OutStream.stdout, get_colour_coding_for_pr pr now 14 ++ pr.title ++ bcolors.ENDC⟩ ::
    ⟨OutStream.stdout, "🔗 " ++ pr.url⟩ ::
    (if i + 1 = n then [⟨OutStream.stdout, "\n"⟩] else [⟨OutStream.stdout, sepDash⟩])
  else []

/-- One iteration of `__main__`'s user loop after the fetch: the blue header,
the `=` rule, the empty-list message when nothing survives the filter, and one
block per filtered pull request (enumerated, as in the source). -/
def render_user (display_name : String) (nodes : List PullRequest)
    (repos : List String) (now : Int) : List OutLine :=
  let pull_requests := filter_prs_by_repos nodes repos
  [⟨OutStream.stdout, bcolors.OKBLUE ++ display_name ++ bcolors.ENDC⟩,
   ⟨OutStream.stdout, sepEq⟩]
  ++ (if pull_requests.length = 0 then [⟨OutStream.stdout, "No pull requests!"⟩] else [])
  ++ (pull_requests.enum.map
        (fun ip => render_pr_block pull_requests.length now repos ip.1 ip.2)).flatten

/-- The pull requests whose block the user loop actually prints: the filtered
list, re-checked by the loop's `if repo not in repos: continue`. -/
def rendered_prs (nodes : List PullRequest) (repos : List String) :
    List PullRequest :=
  (filter_prs_by_repos nodes repos).filter (fun pr => pr.nameWithOwner ∈ repos)

/-- C4: a pull request is rendered only if its repository identifier is in the
configured set; the loop's recheck never removes anything (it equals the
filtered list), and a pull request outside the set produces no output lines. -/
theorem rendered_prs_only_configured (nodes : List PullRequest)
    (repos : List String) (pr : PullRequest) :
    (pr ∈ rendered_prs nodes repos → pr.nameWithOwner ∈ repos)
    ∧ rendered_prs nodes repos = filter_prs_by_repos nodes repos
    ∧ (pr.nameWithOwner ∉ repos →
        ∀ n i now, render_pr_block n now repos i pr = []) := by
  refine ⟨?_, ?_, ?_⟩
  · intro hm
    unfold rendered_prs at hm
    simpa using (List.mem_filter.mp hm).2
  · simp [rendered_prs, filter_prs_by_repos_eq_filter, List.filter_filter]
  · intro hn n i now
    unfold render_pr_block
    rw [if_neg hn]

/-- C4 witness: the invariant instantiated at a concrete rendered PR. -/
theorem rendered_prs_only_configured_witness :
    ("org/repo1" : String) ∈ ["org/repo1"] :=
  (rendered_prs_only_configured [⟨"org/repo1", 0, 1, "a", "ua"⟩] ["org/repo1"]
      ⟨"org/repo1", 0, 1, "a", "ua"⟩).1 (by decide)

/-- A user header never collides with the dash rule: it starts with the escape
character while the rule starts with a dash. -/
theorem header_ne_sepDash (name : String) :
    bcolors.OKBLUE ++ name ++ bcolors.ENDC ≠ sepDash := by
  intro hEq
  have hd := congrArg String.data hEq
  rw [String.data_append, String.data_append] at hd
  have h1 : (bcolors.OKBLUE.data ++ name.data ++ bcolors.ENDC.data).head?
      = some '\x1b' := by
    rw [List.append_assoc]
    rfl
  rw [hd] at h1
  have h2 : sepDash.data.head? = some '-' := rfl
  rw [h2] at h1
  exact absurd h1 (by decide)

/-- C5 (amended): when the filter leaves nothing, the user's output is exactly
the header, the 80-character `=` rule, and the literal "No pull requests!"
line — in particular no dash separator line is printed. -/
theorem render_user_no_prs (name : String) (nodes : List PullRequest)
    (repos : List String) (now : Int)
    (h : filter_prs_by_repos nodes repos = []) :
    render_user name nodes repos now =
      [⟨OutStream.stdout, bcolors.OKBLUE ++ name ++ bcolors.ENDC⟩,
       ⟨OutStream.stdout, sepEq⟩,
       ⟨OutStream.stdout, "No pull requests!"⟩]
    ∧ ∀ l ∈ render_user name nodes repos now, l.text ≠ sepDash := by
  have hout : render_user name nodes repos now =
      [⟨OutStream.stdout, bcolors.OKBLUE ++ name ++ bcolors.ENDC⟩,
       ⟨OutStream.stdout, sepEq⟩,
       ⟨OutStream.stdout, "No pull requests!"⟩] := by
    unfold render_user
    rw [h]
    rfl
  refine ⟨hout, ?_⟩
  rw [hout]
  intro l hl
  simp only [List.mem_cons, List.not_mem_nil, or_false] at hl
  rcases hl with hl | hl | hl
  · rw [hl]
    exact header_ne_sepDash name
  · rw [hl]
    exact fun hc => absurd hc (by decide)
  · rw [hl]
    exact fun hc => absurd hc (by decide)

/-- C5 counterexample: even with zero filtered pull requests the renderer
still prints the 80-character `=` separator rule. -/
theorem render_user_no_prs_counterexample :
    filter_prs_by_repos [] ["org/repo1"] = []
    ∧ (⟨OutStream.stdout, sepEq⟩ : OutLine) ∈ render_user "alice" [] ["org/repo1"] 0
    ∧ sepEq.length = 80 := by
  refine ⟨rfl, ?_, by decide⟩
  unfold render_user
  simp

/-- C5 witness: a fetch with pull requests only outside the configured set
renders the three-line empty report. -/
theorem render_user_no_prs_witness :
    render_user "alice" [⟨"org/repo2", 0, 7, "t", "u"⟩] ["org/repo1"] 0 =
      [⟨OutStream.stdout, bcolors.OKBLUE ++ "alice" ++ bcolors.ENDC⟩,
       ⟨OutStream.stdout, sepEq⟩,
       ⟨OutStream.stdout, "No pull requests!"⟩] :=
  (render_user_no_prs "alice" [⟨"org/repo2", 0, 7, "t", "u"⟩] ["org/repo1"] 0
      (by decide)).1
